import Mathlib

/-!
Verification of the lead-scoring backend (FastAPI service).

Shallow embedding of the scoring pipeline, usage ledger, result cache and
router control flow.  Python strings are Lean `String`s, Python `in` on
strings is substring containment, Python ints are `Int` (or `Nat` where the
value is a count), timestamps are `ℚ` (exact arithmetic in place of floats),
and Python dicts are association lists in insertion order.
-/

/-- Whether `p` is an initial segment of the second list. -/
def starts_with : List Char → List Char → Bool
  | [], _ => true
  | _ :: _, [] => false
  | p :: ps, c :: cs => p = c && starts_with ps cs

/-- Whether `pat` occurs as a contiguous segment of the second list. -/
def substr_chars (pat : List Char) : List Char → Bool
  | [] => pat.isEmpty
  | c :: cs => starts_with pat (c :: cs) || substr_chars pat cs

/-- Python `pat in s` on strings: substring containment. -/
def substr (pat s : String) : Bool :=
  substr_chars pat.data s.data

/-- ASCII lowering of one character (non-ASCII characters are left unchanged,
which is enough for the embedded keyword data). -/
def lower_char (c : Char) : Char :=
  if 'A' ≤ c && c ≤ 'Z' then Char.ofNat (c.toNat + 32) else c

/-- Python `s.lower()`. -/
def py_lower (s : String) : String :=
  String.mk (s.data.map lower_char)

/-- Number of entries of `pats` occurring in `text`
(Python `sum(1 for p in pats if p in text)`). -/
def count_matched (text : String) (pats : List String) : Nat :=
  (pats.filter (fun p => substr p text)).length

/-- Total number of phrases over all families occurring in `text`. -/
def count_pattern_matched (text : String) (fams : List (String × List String)) : Nat :=
  (fams.map (fun f => count_matched text f.2)).sum

/-- Number of families with at least one phrase occurring in `text`. -/
def count_family_matched (text : String) (fams : List (String × List String)) : Nat :=
  (fams.filter (fun f => f.2.any (fun p => substr p text))).length

/-- Python truthiness of an `Optional[str]`: `None` and `""` are falsy. -/
def is_truthy : Option String → Bool
  | none => false
  | some s => !(s == "")

/-- Python `s.strip()`: leading and trailing whitespace removed. -/
def py_strip (s : String) : String :=
  String.mk (((s.data.dropWhile Char.isWhitespace).reverse.dropWhile Char.isWhitespace).reverse)

/-- Whether the regex `\$\d+[k|m]?` matches somewhere in the character list:
`re.search` succeeds iff a `$` is immediately followed by a digit. -/
def has_dollar_digit : List Char → Bool
  | [] => false
  | [_] => false
  | a :: b :: rest => (a = '$' && b.isDigit) || has_dollar_digit (b :: rest)

/-- `re.search(r'\$\d+[k|m]?', post_text)` as a Bool. -/
def has_dollar_amount (s : String) : Bool :=
  has_dollar_digit s.data

/-- `AIEnhancer.struggle_indicators["high_urgency"]`. -/
def struggle_high_urgency : List String :=
  ["struggling", "struggle", "desperate", "urgent", "failing", "lost",
   "can't", "cannot", "can not", "help", "advice", "stuck", "frustrated",
   "overwhelmed", "declining", "losing", "first client", "first customer",
   "no customers", "no clients", "getting clients", "customer acquisition",
   "lead generation", "need help", "looking for", "how to", "what should",
   "any advice", "trouble", "problem", "issue"]

/-- `AIEnhancer.struggle_indicators["medium_urgency"]`. -/
def struggle_medium_urgency : List String :=
  ["challenging", "difficult", "hard", "tough", "slow", "low", "few",
   "not enough", "lack of", "need more", "want to improve", "trying to",
   "working on", "focusing on"]

/-- `AIEnhancer.struggle_indicators["business_keywords"]`. -/
def struggle_business_keywords : List String :=
  ["revenue", "sales", "profit", "growth", "marketing", "advertising",
   "clients", "customers", "leads", "conversion", "retention", "churn",
   "pricing", "competition", "market", "brand", "website", "online",
   "digital", "social media", "email", "content", "seo", "ppc"]

/-- `AIEnhancer.success_story_patterns` (family name, phrases). -/
def success_story_patterns : List (String × List String) :=
  [("revenue_indicators",
    ["hit $", "made $", "reached $", "grew to $", "earned $", "revenue", "mrr", "arr"]),
   ("success_phrases",
    ["here's what worked", "here's how i", "my advice is", "try this", "what you should do"]),
   ("past_tense_success",
    ["i grew", "i built", "i launched", "i created", "i developed", "i achieved"]),
   ("teaching_indicators",
    ["here's what", "let me share", "i want to tell", "here's my story", "here's how"]),
   ("promotion_indicators",
    ["i will not promote", "not promoting", "no promotion"])]

/-- `AIEnhancer.active_struggle_patterns` (family name, phrases). -/
def active_struggle_patterns : List (String × List String) :=
  [("present_tense_questions",
    ["how do i", "what should i", "any advice", "can someone help", "need help with"]),
   ("current_problems",
    ["i'm struggling", "i can't", "i need help", "stuck with", "can't figure out"]),
   ("direct_help_requests",
    ["help me", "advice needed", "any suggestions", "what should i do"])]

/-- `AIEnhancer._calculate_struggle_detection(post_text)`.
`improved` is `self.use_improved_scoring` (default `True`).
The running `score` can go negative in improved mode, hence `Int`;
the final clamp is the source's `max(0, min(100, score))`. -/
def calculate_struggle_detection (improved : Bool) (post_text : String) : Int :=
  if !improved then
    let score : Int :=
      struggle_high_urgency.foldl (fun acc ind => if substr ind post_text then acc + 20 else acc) 0
    let score :=
      struggle_medium_urgency.foldl (fun acc ind => if substr ind post_text then acc + 10 else acc) score
    let score := if substr "?" post_text then score + 15 else score
    min 100 score
  else
    let score : Int :=
      active_struggle_patterns.foldl
        (fun acc fam => fam.2.foldl (fun a p => if substr p post_text then a + 25 else a) acc) 0
    let score :=
      struggle_high_urgency.foldl (fun acc ind => if substr ind post_text then acc + 15 else acc) score
    let score :=
      struggle_medium_urgency.foldl (fun acc ind => if substr ind post_text then acc + 8 else acc) score
    let score := if substr "?" post_text then score + 20 else score
    let score :=
      success_story_patterns.foldl
        (fun acc fam => fam.2.foldl (fun a p => if substr p post_text then a - 30 else a) acc) score
    let score := if has_dollar_amount post_text then score - 25 else score
    let score := if substr "i will not promote" post_text then score - 15 else score
    max 0 (min 100 score)

/-- `AIEnhancer._calculate_keyword_match(post_text, keywords)`.
Python computes `min(100, int((matches / len(keywords)) * 100))`; in exact
arithmetic the truncation is floor, i.e. `Nat` division. -/
def calculate_keyword_match (post_text : String) (keywords : List String) : Int :=
  if keywords.isEmpty then 0
  else
    let matched := count_matched post_text keywords
    min 100 ((matched * 100 / keywords.length : Nat) : Int)

/-- `AIEnhancer._determine_urgency_level(post_text)`. -/
def determine_urgency_level (post_text : String) : String :=
  let high_urgency_count := count_matched post_text struggle_high_urgency
  let medium_urgency_count := count_matched post_text struggle_medium_urgency
  if high_urgency_count ≥ 2 then "High"
  else if high_urgency_count ≥ 1 || medium_urgency_count ≥ 2 then "Medium"
  else "Low"

-- A few sanity examples (concrete evaluations of the embedded code).
example : calculate_keyword_match "aa bb" ["aa", "bb", "cc"] = 66 := by decide
example : calculate_struggle_detection true "how do i? i grew i built" = 0 := by decide
example : determine_urgency_level "i am struggling, help" = "High" := by decide

/-- `business_keywords.BUSINESS_KEYWORDS`, in the source's dict insertion order. -/
def BUSINESS_KEYWORDS : List (String × List String) :=
  [("Gyms / Fitness Studios",
    ["gym", "fitness", "trainer", "workout", "members", "membership", "exercise", "personal training", "fitness studio", "gym owner", "fitness business", "personal trainer", "workout studio", "fitness center", "health club"]),
   ("SaaS Companies",
    ["saas", "software", "app", "application", "platform", "subscription", "mrr", "arr", "api", "dashboard", "tech", "startup", "software company", "web app", "mobile app", "cloud", "b2b", "enterprise", "integration", "automation"]),
   ("E-commerce Stores",
    ["ecommerce", "shopify", "amazon", "etsy", "store", "products", "inventory", "shipping", "retail", "online store", "dropshipping", "fulfillment", "merchandise", "marketplace", "seller", "vendor", "product catalog"]),
   ("Marketing Agencies",
    ["agency", "client", "campaign", "creative", "brand", "marketing", "seo", "ppc", "advertising", "digital marketing", "social media", "content marketing", "email marketing", "marketing agency", "ad agency", "creative agency", "marketing services"]),
   ("Freelance Designers",
    ["freelance", "designer", "design", "graphic design", "ui", "ux", "logo", "branding", "visual", "creative", "portfolio", "client work", "design project", "freelance designer", "graphic designer", "web design"]),
   ("Coffee Shops / Cafés",
    ["coffee", "cafe", "café", "coffee shop", "barista", "espresso", "latte", "coffee business", "cafe owner", "coffee shop owner", "roastery", "coffee roaster", "coffee house", "beverage"]),
   ("Online Course Creators",
    ["course", "online course", "education", "teaching", "learning", "student", "curriculum", "course creator", "online education", "elearning", "training", "workshop", "tutorial", "educational content", "course platform"]),
   ("Local Service Businesses",
    ["local business", "service business", "contractor", "plumber", "electrician", "handyman", "home improvement", "local services", "service provider", "home services", "maintenance", "repair", "installation", "local contractor"]),
   ("App Developers",
    ["app developer", "mobile app", "ios", "android", "app development", "programming", "coding", "developer", "software developer", "app store", "mobile development", "app creation", "app building", "mobile app developer"]),
   ("Consultants / Coaches",
    ["consultant", "coach", "consulting", "coaching", "advisor", "mentor", "business coach", "life coach", "consulting business", "coaching business", "professional services", "business advisor", "strategy consultant"])]

/-- `business_keywords.INDUSTRY_KEYWORDS`, in the source's dict insertion order
(the "Finance / Fintech" list repeats "investment" and "fintech", as in the source). -/
def INDUSTRY_KEYWORDS : List (String × List String) :=
  [("Fitness",
    ["fitness", "gym", "workout", "exercise", "training", "health", "wellness", "personal training", "fitness business", "gym owner", "fitness studio", "health club", "fitness center"]),
   ("SaaS / Tech",
    ["saas", "software", "tech", "technology", "app", "application", "platform", "startup", "software company", "tech company", "web app", "mobile app", "cloud", "b2b", "enterprise"]),
   ("E-commerce",
    ["ecommerce", "online store", "retail", "shopping", "products", "marketplace", "seller", "vendor", "shopify", "amazon", "etsy", "dropshipping", "fulfillment", "merchandise"]),
   ("Marketing & Advertising",
    ["marketing", "advertising", "agency", "digital marketing", "social media", "seo", "ppc", "content marketing", "email marketing", "brand", "campaign", "creative", "marketing agency"]),
   ("Education / Edtech",
    ["education", "learning", "teaching", "course", "online course", "student", "elearning", "training", "workshop", "tutorial", "educational", "course creator", "online education"]),
   ("Food & Beverage",
    ["food", "restaurant", "cafe", "coffee", "beverage", "dining", "food business", "restaurant owner", "coffee shop", "cafe owner", "food service", "culinary", "catering", "food truck"]),
   ("Local Services",
    ["local business", "service", "contractor", "home improvement", "maintenance", "repair", "installation", "local services", "service provider", "home services", "local contractor"]),
   ("Finance / Fintech",
    ["finance", "financial", "fintech", "banking", "investment", "money", "financial services", "fintech company", "financial advisor", "investment", "trading", "cryptocurrency", "fintech"]),
   ("Freelancers / Creatives",
    ["freelance", "freelancer", "creative", "design", "designer", "artist", "creative services", "freelance work", "creative business", "design business", "creative professional"]),
   ("Consulting / Coaching",
    ["consulting", "coaching", "consultant", "coach", "advisor", "mentor", "professional services", "business consulting", "life coaching", "business coach", "strategy consultant", "business advisor"])]

/-- `business_keywords.get_keywords_for_business` (`dict.get(key, [])`). -/
def get_keywords_for_business (business_type : String) : List String :=
  (BUSINESS_KEYWORDS.lookup business_type).getD []

/-- `business_keywords.get_keywords_for_industry`. -/
def get_keywords_for_industry (industry_type : String) : List String :=
  (INDUSTRY_KEYWORDS.lookup industry_type).getD []

/-- `business_keywords.get_keywords_for_selection(business, industry)`;
the Python branches test truthiness of the optional strings. -/
def get_keywords_for_selection (business industry : Option String) : List String :=
  if is_truthy business then get_keywords_for_business (business.getD "")
  else if is_truthy industry then get_keywords_for_industry (industry.getD "")
  else []

/-- `business_keywords.calculate_business_relevance_score(post_text, target_keywords)`.
Python computes `match_percentage = (matches / len) * 100` as a float, adds the
integer bonus and returns `min(100, int(match_percentage))`; in exact arithmetic
that truncation is `matches * 100 / len` (floor) plus the bonus. -/
def calculate_business_relevance_score (post_text : String) (target_keywords : List String) : Int :=
  if target_keywords.isEmpty then 0
  else
    let matched := count_matched (py_lower post_text) target_keywords
    let match_percentage : Int :=
      ((matched * 100 / target_keywords.length : Nat) : Int) +
        (if matched ≥ 3 then 20 else if matched ≥ 2 then 10 else 0)
    min 100 match_percentage

/-- `AIEnhancer._calculate_business_conflict_penalty(post_text, business_type, industry_type)`. -/
def calculate_business_conflict_penalty
    (post_text : String) (business_type industry_type : Option String) : Int :=
  let all_businesses :=
    (if is_truthy business_type then BUSINESS_KEYWORDS else INDUSTRY_KEYWORDS).map Prod.fst
  let target : Option String := if is_truthy business_type then business_type else industry_type
  match target with
  | none => 0
  | some t =>
    if all_businesses.contains t then
      ((all_businesses.filter (fun b => b ≠ t)).take 3).foldl
        (fun penalty other_business =>
          let other_keywords :=
            if is_truthy business_type then
              get_keywords_for_selection (some other_business) none
            else
              get_keywords_for_selection none (some other_business)
          if count_matched post_text other_keywords ≥ 2 then penalty + 15 else penalty) 0
    else 0

/-- `AIEnhancer._calculate_business_relevance(post_text, business_type, industry_type)`.
`improved` is `self.use_improved_scoring`. -/
def calculate_business_relevance
    (improved : Bool) (post_text : String) (business_type industry_type : Option String) : Int :=
  if !improved then
    min 100
      (struggle_business_keywords.foldl
        (fun score keyword => if substr keyword post_text then score + 5 else score) 0)
  else if !is_truthy business_type && !is_truthy industry_type then 0
  else
    let target_keywords := get_keywords_for_selection business_type industry_type
    if target_keywords.isEmpty then 0
    else
      let business_relevance := calculate_business_relevance_score post_text target_keywords
      let conflict_penalty := calculate_business_conflict_penalty post_text business_type industry_type
      min 100 (max 0 (business_relevance - conflict_penalty))

/-- `ai_enhancer.RelevanceScore`. -/
structure RelevanceScore where
  overall_score : Int
  keyword_match : Int
  struggle_detection : Int
  business_relevance : Int
  urgency_level : String
deriving DecidableEq

/-- `AIEnhancer.analyze_post_relevance(post, keywords, business_type, industry_type)`.
`title`/`selftext` are `post["title"]`/`post["text"]`; the method lowercases
their concatenation.  Python blends the overall score as
`int(k*0.3 + s*0.6 + b*0.1)` (improved) or `int(k*0.4 + s*0.4 + b*0.2)`
(original); in exact arithmetic those are the floored quotients below
(all three components are nonnegative, so `Int` division is the floor). -/
def analyze_post_relevance (improved : Bool) (title selftext : String)
    (keywords : List String) (business_type industry_type : Option String) : RelevanceScore :=
  let post_text := py_lower (title ++ " " ++ selftext)
  let keyword_score := calculate_keyword_match post_text keywords
  let struggle_score := calculate_struggle_detection improved post_text
  let business_score := calculate_business_relevance improved post_text business_type industry_type
  let urgency_level := determine_urgency_level post_text
  let overall_score :=
    if improved then (keyword_score * 3 + struggle_score * 6 + business_score * 1) / 10
    else (keyword_score * 4 + struggle_score * 4 + business_score * 2) / 10
  { overall_score := overall_score
    keyword_match := keyword_score
    struggle_detection := struggle_score
    business_relevance := business_score
    urgency_level := urgency_level }

/-- `cost_calculator.get_posts_to_scrape(result_count)`: fixed 15:1 ratio. -/
def get_posts_to_scrape (result_count : Int) : Int :=
  result_count * 15

/-- Return value of `cost_calculator.validate_user_limits`
`(is_valid, error_message, posts_needed, remaining_results, remaining_posts)`. -/
structure LimitCheck where
  is_valid : Bool
  error_message : String
  posts_needed : Int
  remaining_results : Int
  remaining_posts : Int
deriving DecidableEq

/-- `cost_calculator.validate_user_limits(user_results_used, user_posts_analyzed,
requested_results)` with `MAX_RESULTS = 150` and `MAX_POSTS = 2250`. -/
def validate_user_limits
    (user_results_used user_posts_analyzed requested_results : Int) : LimitCheck :=
  let posts_needed := get_posts_to_scrape requested_results
  if user_results_used + requested_results > 150 then
    let remaining_results := 150 - user_results_used
    { is_valid := false
      error_message := s!"Request would exceed beta limit. You have {remaining_results} results remaining, but requested {requested_results}"
      posts_needed := posts_needed
      remaining_results := remaining_results
      remaining_posts := 2250 - user_posts_analyzed }
  else if user_posts_analyzed + posts_needed > 2250 then
    let remaining_posts := 2250 - user_posts_analyzed
    { is_valid := false
      error_message := s!"Request would exceed budget limit. You have {remaining_posts} posts remaining, but requested {requested_results} results"
      posts_needed := posts_needed
      remaining_results := 150 - user_results_used
      remaining_posts := remaining_posts }
  else
    let new_results_used := user_results_used + requested_results
    let new_posts_analyzed := user_posts_analyzed + posts_needed
    { is_valid := true
      error_message := "Valid request"
      posts_needed := posts_needed
      remaining_results := 150 - new_results_used
      remaining_posts := 2250 - new_posts_analyzed }

/-- `ResultCache._generate_cache_key(query, business_type, time_range, user_id,
result_count)`: plain underscore concatenation; `result_count=None` omits the
final component. -/
def generate_cache_key
    (query business_type time_range user_id : String) (result_count : Option Int) : String :=
  match result_count with
  | some n => query ++ "_" ++ business_type ++ "_" ++ time_range ++ "_" ++ user_id ++ "_" ++ toString n
  | none => query ++ "_" ++ business_type ++ "_" ++ time_range ++ "_" ++ user_id

/-- The in-memory cache `{cache_key: (timestamp, results)}`, as an association
list with at most one entry per key; timestamps are seconds as `ℚ`. -/
abbrev CacheStore (α : Type) := List (String × ℚ × α)

/-- `ResultCache.get_cached_results(...)`, explicit about state and the clock:
returns the cache after the call (expired entries are deleted) together with
`None` on a miss or `(results, age_hours)` on a hit.  The freshness window
`refresh_interval_hours` is 24. -/
def get_cached_results {α : Type} (cache : CacheStore α) (now : ℚ)
    (query business_type time_range user_id : String) (result_count : Option Int) :
    CacheStore α × Option (α × ℚ) :=
  let cache_key := generate_cache_key query business_type time_range user_id result_count
  match cache.lookup cache_key with
  | none => (cache, none)
  | some (timestamp, results) =>
    let age_hours := (now - timestamp) / 3600
    if age_hours > 24 then
      (cache.filter (fun e => e.1 ≠ cache_key), none)
    else
      (cache, some (results, age_hours))

/-- `ResultCache.cache_results(...)`: dict assignment
`self.cache[cache_key] = (time.time(), results)` (the age in
`results_with_age` is ignored, as in the source). -/
def cache_results {α : Type} (cache : CacheStore α) (now : ℚ)
    (query business_type time_range user_id : String) (result_count : Option Int)
    (results_with_age : α × ℚ) : CacheStore α :=
  let cache_key := generate_cache_key query business_type time_range user_id result_count
  (cache_key, now, results_with_age.1) :: cache.filter (fun e => e.1 ≠ cache_key)

-- Sanity examples.
example : (validate_user_limits 145 0 10).is_valid = false := by decide
example : (validate_user_limits 145 0 10).remaining_results = 5 := by decide
example : calculate_business_relevance true
    "fitness gym workout exercise training health wellness personal training fitness business gym owner fitness studio saas software"
    none (some "Fitness") = 85 := by decide
example : generate_cache_key "a_b" "c" "t" "u" (some 5) =
    generate_cache_key "a" "b_c" "t" "u" (some 5) := by decide

/-- Stable insertion into a list sorted descending by `key`
(a new element goes before the first element whose key is not larger). -/
def insert_desc {α : Type} (key : α → Int) (x : α) : List α → List α
  | [] => [x]
  | y :: ys => if key x ≥ key y then x :: y :: ys else y :: insert_desc key x ys

/-- Python `lst.sort(key=..., reverse=True)`: stable sort, descending by `key`. -/
def sort_by_desc {α : Type} (key : α → Int) (l : List α) : List α :=
  l.foldr (insert_desc key) []

/-- Stop-word set of `AIEnhancer._extract_keywords`. -/
def extract_stopwords : List String :=
  ["the", "a", "an", "and", "or", "but", "in", "on", "at", "to", "for", "of",
   "with", "by", "is", "are", "was", "were", "be", "been", "being", "have",
   "has", "had", "do", "does", "did", "will", "would", "could", "should",
   "may", "might", "must", "can", "cannot"]

/-- Word character of the regex `\w` (ASCII approximation). -/
def is_word_char (c : Char) : Bool :=
  c.isAlphanum || c = '_'

/-- Maximal `\w+` runs of a character list, in order:
`re.findall(r'\b\w+\b', ...)`. `cur` is the current run, reversed. -/
def tokenize_aux : List Char → List Char → List String
  | [], cur => if cur.isEmpty then [] else [String.mk cur.reverse]
  | c :: rest, cur =>
    if is_word_char c then tokenize_aux rest (c :: cur)
    else if cur.isEmpty then tokenize_aux rest []
    else String.mk cur.reverse :: tokenize_aux rest []

/-- `AIEnhancer._extract_keywords(text)`: lowercase, tokenize on word
boundaries, drop stop words and tokens of length ≤ 2, deduplicate.
Python's `list(set(...))` has unspecified order; modelled as first-occurrence
order (all uses of the result are order-independent sums/unions). -/
def extract_keywords (text : String) : List String :=
  let words := tokenize_aux (py_lower text).data []
  (words.filter (fun word => !extract_stopwords.contains word && word.length > 2)).dedup

/-- `business_mapping.BUSINESS_MAPPINGS`, keyword lists only (the subreddit
lists are used by the out-of-scope fetch collaborator). -/
def BUSINESS_MAPPINGS_keywords : List (String × List String) :=
  [("Gyms / Fitness Studios",
    ["gym", "fitness", "workout", "personal training", "fitness studio", "membership", "trainer", "exercise"]),
   ("SaaS Companies",
    ["saas", "software", "app", "platform", "subscription", "mrr", "arr", "users", "customers", "startup", "founder"]),
   ("E-commerce Stores",
    ["ecommerce", "online store", "shopify", "amazon", "selling", "products", "inventory", "sales", "customers"]),
   ("Marketing Agencies",
    ["marketing", "agency", "advertising", "seo", "social media", "campaigns", "clients", "digital marketing"]),
   ("Freelance Designers",
    ["freelance", "design", "graphic design", "logo", "branding", "client", "portfolio", "creative"]),
   ("Coffee Shops / Cafés",
    ["coffee", "cafe", "restaurant", "food", "beverage", "customers", "menu", "location"]),
   ("Online Course Creators",
    ["course", "online learning", "education", "teaching", "students", "content", "platform"]),
   ("Local Service Businesses",
    ["local business", "service", "contractor", "home improvement", "repair", "cleaning", "maintenance"]),
   ("App Developers",
    ["app", "mobile", "development", "programming", "ios", "android", "users", "downloads"]),
   ("Consultants / Coaches",
    ["consulting", "coaching", "advisor", "mentor", "client", "consultation", "strategy"]),
   ("Jobs and Hiring",
    ["job search", "resume help", "interview advice", "job leads", "career change", "unemployment", "job application", "hiring process", "job market", "career advice", "job openings", "job hunting tips"])]

/-- `business_mapping.INDUSTRY_MAPPINGS`, keyword lists only. -/
def INDUSTRY_MAPPINGS_keywords : List (String × List String) :=
  [("Fitness",
    ["gym", "fitness", "workout", "personal training", "fitness studio", "membership", "trainer", "exercise"]),
   ("SaaS / Tech",
    ["saas", "software", "app", "platform", "subscription", "mrr", "arr", "users", "customers", "startup", "founder"]),
   ("E-commerce",
    ["ecommerce", "online store", "shopify", "amazon", "selling", "products", "inventory", "sales", "customers"]),
   ("Marketing & Advertising",
    ["marketing", "agency", "advertising", "seo", "social media", "campaigns", "clients", "digital marketing"]),
   ("Education / Edtech",
    ["course", "online learning", "education", "teaching", "students", "content", "platform"]),
   ("Food & Beverage",
    ["coffee", "cafe", "restaurant", "food", "beverage", "customers", "menu", "location"]),
   ("Local Services",
    ["local business", "service", "contractor", "home improvement", "repair", "cleaning", "maintenance"]),
   ("Finance / Fintech",
    ["finance", "fintech", "banking", "investment", "money", "financial", "finances"]),
   ("Freelancers / Creatives",
    ["freelance", "design", "graphic design", "logo", "branding", "client", "portfolio", "creative"])]

/-- Struggle-indicator list of `FastLeadFilter._rule_based_filter`. -/
def fast_struggle_indicators : List String :=
  ["struggling", "help", "can't", "cannot", "can not", "trouble", "problem", "issue",
   "stuck", "frustrated", "overwhelmed", "desperate", "urgent", "failing", "lost",
   "losing", "declining", "first client", "first customer", "no customers", "no clients",
   "getting clients", "customer acquisition", "lead generation", "need help",
   "looking for", "how to", "what should", "any advice"]

/-- `ai_config.AI_RELEVANCE_THRESHOLD` (`self.ai_config["threshold"]`). -/
def AI_RELEVANCE_THRESHOLD : Int := 5

/-- `models.lead.Lead` (pydantic model). -/
structure Lead where
  title : String
  subreddit : String
  snippet : String
  permalink : String
  author : String
  created_utc : ℚ
  score : Int
  matched_keywords : List String
  ai_relevance_score : Int
  urgency_level : String
  business_context : String
  problem_category : String
  ai_summary : String
deriving DecidableEq

/-- A raw Reddit post dict as seen by `FastLeadFilter`.  `title`/`content` are
`none` when the stored value is not a string (then `.lower()` raises, the
event the pipeline's exception handling is about); `fields_ok = false` models
remaining field values on which the pydantic `Lead(...)` constructor raises. -/
structure RawPost where
  title : Option String
  content : Option String
  subreddit : String
  permalink : String
  author : String
  created_utc : ℚ
  score : Int
  fields_ok : Bool
deriving DecidableEq

/-- Reading a string field: raises (`Except.error`) on a non-string value. -/
def get_str : Option String → Except Unit String
  | some s => Except.ok s
  | none => Except.error ()

/-- Maximal runs of non-whitespace characters (`cur` is the current run,
reversed): Python `s.split()` drops empty fields. -/
def split_words_aux : List Char → List Char → List String
  | [], cur => if cur.isEmpty then [] else [String.mk cur.reverse]
  | c :: rest, cur =>
    if c.isWhitespace then
      if cur.isEmpty then split_words_aux rest []
      else String.mk cur.reverse :: split_words_aux rest []
    else split_words_aux rest (c :: cur)

/-- Python `s.split()` (no argument): whitespace split, empty fields dropped. -/
def py_split_words (s : String) : List String :=
  split_words_aux s.data []

/-- Score of one post inside the loop of `FastLeadFilter._rule_based_filter`:
+3 per matching business keyword, +2 per struggle indicator, +4 per enhanced
keyword, +1 per problem word of length > 3.  Accessing a non-string
title/content raises. -/
def score_post (all_keywords enhanced_keywords problem_words : List String)
    (post : RawPost) : Except Unit (RawPost × Int) := do
  let title ← get_str post.title
  let content ← get_str post.content
  let text := py_lower title ++ " " ++ py_lower content
  let score : Int :=
    all_keywords.foldl (fun s keyword => if substr (py_lower keyword) text then s + 3 else s) 0
  let score :=
    fast_struggle_indicators.foldl (fun s ind => if substr ind text then s + 2 else s) score
  let score :=
    enhanced_keywords.foldl (fun s keyword => if substr (py_lower keyword) text then s + 4 else s) score
  let score :=
    problem_words.foldl (fun s word => if word.length > 3 && substr word text then s + 1 else s) score
  pure (post, score)

/-- `FastLeadFilter._rule_based_filter(posts, problem_description, business_type,
industry_type)`: combine keywords, score every post (an exception on any post
propagates), keep scores ≥ the threshold, sort descending (stable). -/
def rule_based_filter (posts : List RawPost) (problem_description : String)
    (business_type : String) (industry_type : Option String) :
    Except Unit (List (RawPost × Int)) := do
  let business_keywords := (BUSINESS_MAPPINGS_keywords.lookup business_type).getD []
  let business_keywords :=
    if is_truthy industry_type then
      business_keywords ++ ((INDUSTRY_MAPPINGS_keywords.lookup (industry_type.getD "")).getD [])
    else business_keywords
  let enhanced_keywords := extract_keywords problem_description
  let all_keywords := business_keywords ++ enhanced_keywords
  let problem_words := py_split_words (py_lower problem_description)
  let scored ← posts.mapM (score_post all_keywords enhanced_keywords problem_words)
  let filtered_posts := scored.filter (fun ps => ps.2 ≥ AI_RELEVANCE_THRESHOLD)
  pure (sort_by_desc (fun ps => ps.2) filtered_posts)

/-- The `Lead(...)` construction of `FastLeadFilter._create_leads_from_posts`
for one scored post; raises when the raw field values do not validate. -/
def make_lead (ps : RawPost × Int) (business_type : String) : Except Unit Lead := do
  let post := ps.1
  let title ← get_str post.title
  let content ← get_str post.content
  if post.fields_ok then
    pure { title := title
           subreddit := post.subreddit
           snippet :=
             if content.length > 200 then String.mk (content.data.take 200) ++ "..." else content
           permalink := post.permalink
           author := post.author
           created_utc := post.created_utc
           score := post.score
           matched_keywords := []
           ai_relevance_score := ps.2
           urgency_level := "Medium"
           business_context := business_type
           problem_category := "General"
           ai_summary := "" }
  else Except.error ()

/-- `FastLeadFilter._create_leads_from_posts`: per-post `try/except/continue` —
a post whose `Lead` construction raises is skipped, the rest are kept. -/
def create_leads_from_posts (posts : List (RawPost × Int))
    (problem_description business_type : String) : List Lead :=
  posts.foldl
    (fun leads ps =>
      match make_lead ps business_type with
      | Except.ok lead => leads ++ [lead]
      | Except.error _ => leads) []

/-- `FastLeadFilter._add_simple_summaries`: sets `ai_summary` on every lead.
`summarize` stands for `_generate_smart_summary`, whose template fallback
depends on Python's run-time-salted `hash(title) % 3`; it is total (internal
per-lead `try/except` fallback), so it is modelled as a parameter. -/
def add_simple_summaries (summarize : Lead → String) (leads : List Lead) : List Lead :=
  leads.map (fun lead => { lead with ai_summary := summarize lead })

/-- The metrics dict of `FastLeadFilter.filter_posts`. -/
structure FilterMetrics where
  posts_analyzed : Nat
  posts_filtered : Nat
  summaries_generated : Nat
  tokens_used : Nat
  cost : ℚ
  filter_method : String
  summary_method : String
  results_returned : Option Nat
deriving DecidableEq

/-- The `self._last_metrics` dict as reset at the top of `filter_posts`
(no `results_returned` key yet). -/
def initial_filter_metrics (posts : List RawPost) : FilterMetrics :=
  { posts_analyzed := posts.length
    posts_filtered := 0
    summaries_generated := 0
    tokens_used := 0
    cost := 0
    filter_method := "rule_based"
    summary_method := "openai"
    results_returned := none }

/-- `FastLeadFilter.filter_posts(posts, problem_description, business_type,
industry_type)`: the whole body runs under one `try`; any exception from the
rule-based scoring yields `([], self._last_metrics)`. -/
def filter_posts (summarize : Lead → String) (posts : List RawPost)
    (problem_description business_type : String) (industry_type : Option String) :
    List Lead × FilterMetrics :=
  let metrics := initial_filter_metrics posts
  match rule_based_filter posts problem_description business_type industry_type with
  | Except.error _ => ([], metrics)
  | Except.ok filtered_posts =>
    let leads := create_leads_from_posts filtered_posts problem_description business_type
    let leads := if leads.isEmpty then leads else add_simple_summaries summarize leads
    (leads,
     { metrics with posts_filtered := filtered_posts.length, results_returned := some leads.length })

/-- The mutable usage columns of a `database.User` row. -/
structure Account where
  results_used : Int
  posts_analyzed : Int
deriving DecidableEq

/-- External effects of `routers.leads.search_leads`, in execution order. -/
inductive SearchEvent where
  | quota_check
  | cache_lookup
  | reddit_fetch
  | filter_run
  | cache_store
  | usage_commit
deriving DecidableEq

/-- The error responses `search_leads` can raise (HTTP 400). -/
inductive SearchFailure where
  | validation_error (detail : String)
  | quota_error (detail : String)
deriving DecidableEq

/-- The fields of `LeadSearchResponse` the core is responsible for. -/
structure SearchResponse where
  leads : List Lead
  total_found : Nat
  result_age_hours : ℚ
  results_remaining : Int
  posts_remaining : Int
  posts_analyzed : Nat
deriving DecidableEq

/-- `routers.leads.LeadSearchRequest`. -/
structure SearchRequest where
  problem_description : String
  business : Option String
  industry : Option String
  user_id : Option String
  result_count : Int
deriving DecidableEq

deriving instance DecidableEq for Except

/-- Result of one `search_leads` call: the HTTP outcome, the account row and
the cache after the call, and the trace of external effects. -/
structure SearchOutcome where
  result : Except SearchFailure SearchResponse
  user_after : Option Account
  cache_after : CacheStore (List Lead)
  events : List SearchEvent
deriving DecidableEq

/-- The usage-commit block of `search_leads` (lines updating
`user.results_used`/`user.posts_analyzed` and recomputing the remaining
figures): runs only for an identified account; anonymous callers get the
default figures 150/2250.  Returns (updated account, results_remaining,
posts_remaining, events). -/
def commit_usage (effective_user : Option Account) (result_count posts_needed : Int) :
    Option Account × Int × Int × List SearchEvent :=
  match effective_user with
  | some acc =>
    let acc' : Account :=
      { results_used := acc.results_used + result_count
        posts_analyzed := acc.posts_analyzed + posts_needed }
    (some acc', 150 - acc'.results_used, 2250 - acc'.posts_analyzed, [SearchEvent.usage_commit])
  | none => (none, 150, 2250, [])

/-- Cache-key user id: Python `request.user_id or "anonymous"`. -/
def cache_uid : Option String → String
  | some s => if s == "" then "anonymous" else s
  | none => "anonymous"

/-- Continuation of `search_leads` after validation and the quota gate:
cache lookup, on a miss fetch + filter + truncate + store, then the usage
commit and the response.  `effective_user` is the DB row found for the
caller (`none` for anonymous callers or when the id lookup found nothing),
`fetched` the posts the Reddit collaborator returns, `ev0` the events so far. -/
def search_leads_core (req : SearchRequest) (user effective_user : Option Account)
    (cache : CacheStore (List Lead)) (now : ℚ) (fetched : List RawPost)
    (summarize : Lead → String) (ev0 : List SearchEvent) : SearchOutcome :=
  let posts_needed := get_posts_to_scrape req.result_count
  let business_type := (if is_truthy req.business then req.business else req.industry).getD ""
  let uid := cache_uid req.user_id
  let looked :=
    get_cached_results cache now req.problem_description business_type "all_time" uid
      (some req.result_count)
  let ev := ev0 ++ [SearchEvent.cache_lookup]
  match looked.2 with
  | some (leads, age) =>
    let committed := commit_usage effective_user req.result_count posts_needed
    { result := Except.ok
        { leads := leads
          total_found := leads.length
          result_age_hours := age
          results_remaining := committed.2.1
          posts_remaining := committed.2.2.1
          posts_analyzed := 0 }
      user_after := match committed.1 with | some acc => some acc | none => user
      cache_after := looked.1
      events := ev ++ committed.2.2.2 }
  | none =>
    let filtered := filter_posts summarize fetched req.problem_description business_type none
    let target_leads := filtered.1.take req.result_count.toNat
    let cache2 :=
      cache_results looked.1 now req.problem_description business_type "all_time" uid
        (some req.result_count) (target_leads, 0)
    let ev := ev ++ [SearchEvent.reddit_fetch, SearchEvent.filter_run, SearchEvent.cache_store]
    let committed := commit_usage effective_user req.result_count posts_needed
    { result := Except.ok
        { leads := target_leads
          total_found := target_leads.length
          result_age_hours := 0
          results_remaining := committed.2.1
          posts_remaining := committed.2.2.1
          posts_analyzed := fetched.length }
      user_after := match committed.1 with | some acc => some acc | none => user
      cache_after := cache2
      events := ev ++ committed.2.2.2 }

/-- `routers.leads.search_leads(request, db)`.  Validation (category present
and exclusive, non-blank problem text, result count in [1,150]) runs first;
then, for an identified caller, `validate_user_limits`; then the cache/fetch/
filter/commit pipeline of `search_leads_core`.  `user` is the DB row for
`request.user_id` (`none` when absent or when `int(user_id)` fails). -/
def search_leads (req : SearchRequest) (user : Option Account)
    (cache : CacheStore (List Lead)) (now : ℚ) (fetched : List RawPost)
    (summarize : Lead → String) : SearchOutcome :=
  if !is_truthy req.business && !is_truthy req.industry then
    { result := Except.error (SearchFailure.validation_error "Either business or industry must be selected")
      user_after := user, cache_after := cache, events := [] }
  else if is_truthy req.business && is_truthy req.industry then
    { result := Except.error (SearchFailure.validation_error "Cannot select both business and industry")
      user_after := user, cache_after := cache, events := [] }
  else if py_strip req.problem_description = "" then
    { result := Except.error (SearchFailure.validation_error "Problem description is required")
      user_after := user, cache_after := cache, events := [] }
  else if req.result_count < 1 || req.result_count > 150 then
    { result := Except.error (SearchFailure.validation_error "Result count must be between 1 and 150")
      user_after := user, cache_after := cache, events := [] }
  else
    let effective_user := if is_truthy req.user_id then user else none
    match effective_user with
    | some acc =>
      let check := validate_user_limits acc.results_used acc.posts_analyzed req.result_count
      if check.is_valid = false then
        { result := Except.error (SearchFailure.quota_error check.error_message)
          user_after := user, cache_after := cache, events := [SearchEvent.quota_check] }
      else
        search_leads_core req user effective_user cache now fetched summarize
          [SearchEvent.quota_check]
    | none =>
      search_leads_core req user effective_user cache now fetched summarize []

theorem foldl_add_if {α : Type} (p : α → Bool) (w : Int) :
    ∀ (l : List α) (init : Int),
      l.foldl (fun a x => if p x then a + w else a) init
        = init + w * ((l.filter p).length : Int) := by
  intro l
  induction l with
  | nil => intro init; simp
  | cons a l ih =>
    intro init
    by_cases h : p a <;> simp [h, ih] <;> ring

theorem foldl_sub_if {α : Type} (p : α → Bool) (w : Int) :
    ∀ (l : List α) (init : Int),
      l.foldl (fun a x => if p x then a - w else a) init
        = init - w * ((l.filter p).length : Int) := by
  intro l
  induction l with
  | nil => intro init; simp
  | cons a l ih =>
    intro init
    by_cases h : p a <;> simp [h, ih] <;> ring

theorem foldl_fams_add (text : String) (w : Int) :
    ∀ (fams : List (String × List String)) (init : Int),
      fams.foldl (fun acc fam => fam.2.foldl (fun a p => if substr p text then a + w else a) acc) init
        = init + w * (count_pattern_matched text fams : Int) := by
  intro fams
  induction fams with
  | nil => intro init; simp [count_pattern_matched]
  | cons f fs ih =>
    intro init
    rw [List.foldl_cons, foldl_add_if (fun p => substr p text) w f.2 init, ih]
    simp only [count_pattern_matched, count_matched, List.map_cons, List.sum_cons]
    push_cast
    ring

theorem foldl_fams_sub (text : String) (w : Int) :
    ∀ (fams : List (String × List String)) (init : Int),
      fams.foldl (fun acc fam => fam.2.foldl (fun a p => if substr p text then a - w else a) acc) init
        = init - w * (count_pattern_matched text fams : Int) := by
  intro fams
  induction fams with
  | nil => intro init; simp [count_pattern_matched]
  | cons f fs ih =>
    intro init
    rw [List.foldl_cons, foldl_sub_if (fun p => substr p text) w f.2 init, ih]
    simp only [count_pattern_matched, count_matched, List.map_cons, List.sum_cons]
    push_cast
    ring

/-- The struggle score exactly as claim C1 words it: −30 once per success-story
*family* matched (all other boosts and penalties as in the code). -/
def c1_claim_struggle_score (text : String) : Int :=
  max 0 (min 100 (
    25 * (count_pattern_matched text active_struggle_patterns : Int)
    + 15 * (count_matched text struggle_high_urgency : Int)
    + 8 * (count_matched text struggle_medium_urgency : Int)
    + (if substr "?" text then 20 else 0)
    - 30 * (count_family_matched text success_story_patterns : Int)
    - (if has_dollar_amount text then 25 else 0)
    - (if substr "i will not promote" text then 15 else 0)))

/-- Claim C1 (counterexample): on `"how do i? i grew i built"` the code scores
0 (two phrases of the `past_tense_success` family are penalized −30 each:
25 + 20 − 60 clamps to 0), while the per-family composition of the claim
gives 15 (25 + 20 − 30).  So the −30 penalty is per individual phrase, not
per family. -/
theorem c1_per_family_penalty_counterexample :
    calculate_struggle_detection true "how do i? i grew i built" = 0 ∧
    c1_claim_struggle_score "how do i? i grew i built" = 15 := by
  constructor <;> decide

/-- Claim C1 (amended): in the default (improved) mode the struggle score is
the clamp to [0,100] of +25 per active-struggle phrase, +15 per high-urgency
indicator, +8 per medium-urgency indicator, +20 for a question mark, −30 per
individual success-story phrase matched (not per family), −25 for a
currency-amount match and −15 for "i will not promote". -/
theorem c1_struggle_score_amended (text : String) :
    calculate_struggle_detection true text =
      max 0 (min 100 (
        25 * (count_pattern_matched text active_struggle_patterns : Int)
        + 15 * (count_matched text struggle_high_urgency : Int)
        + 8 * (count_matched text struggle_medium_urgency : Int)
        + (if substr "?" text then 20 else 0)
        - 30 * (count_pattern_matched text success_story_patterns : Int)
        - (if has_dollar_amount text then 25 else 0)
        - (if substr "i will not promote" text then 15 else 0))) := by
  simp only [calculate_struggle_detection, Bool.not_true, Bool.false_eq_true, if_false]
  rw [foldl_fams_add text 25 active_struggle_patterns 0]
  rw [foldl_add_if (fun ind => substr ind text) 15 struggle_high_urgency]
  rw [foldl_add_if (fun ind => substr ind text) 8 struggle_medium_urgency]
  rw [foldl_fams_sub text 30 success_story_patterns]
  simp only [count_matched]
  split_ifs <;> omega

/-- The keyword-match score exactly as claim C2 words it: rounding to the
nearest integer (half rounds up) instead of the code's truncation, counting
distinct supplied keywords. -/
def c2_claim_keyword_match (post_text : String) (keywords : List String) : Int :=
  if keywords.isEmpty then 0
  else
    let matched := (keywords.dedup.filter (fun k => substr k post_text)).length
    min 100 (((2 * (matched * 100) + keywords.length) / (2 * keywords.length) : Nat) : Int)

/-- Claim C2 (counterexample): with keywords `["aa", "bb", "cc"]` and text
`"aa bb"`, 2 of 3 keywords match; `int((2/3)*100)` truncates to 66 while
`round(100*2/3)` is 67.  The code truncates, it does not round. -/
theorem c2_rounding_counterexample :
    calculate_keyword_match "aa bb" ["aa", "bb", "cc"] = 66 ∧
    c2_claim_keyword_match "aa bb" ["aa", "bb", "cc"] = 67 := by
  constructor <;> decide

/-- Claim C2 (amended): for a duplicate-free keyword list the score is
`min(100, floor(100 * matched_count / total_keywords))` — truncating
division, not rounding — with `matched_count` the number of distinct supplied
keywords occurring as substrings of the post text, and 0 for an empty list. -/
theorem c2_keyword_match_amended (post_text : String) (keywords : List String)
    (hnd : keywords.Nodup) :
    calculate_keyword_match post_text keywords =
      if keywords.isEmpty then 0
      else
        min 100
          ((((keywords.dedup.filter (fun k => substr k post_text)).length * 100
              / keywords.length : Nat)) : Int) := by
  rw [calculate_keyword_match, List.dedup_eq_self.mpr hnd]
  rfl

/-- Witness for `c2_keyword_match_amended` at keywords `["aa", "bb", "cc"]`
(duplicate-free) and text `"aa bb"`. -/
theorem c2_keyword_match_amended_witness :
    calculate_keyword_match "aa bb" ["aa", "bb", "cc"] = 66 := by
  have h := c2_keyword_match_amended "aa bb" ["aa", "bb", "cc"] (by decide)
  rw [h]
  decide

theorem foldl_add_if_prop {α : Type} (P : α → Prop) [DecidablePred P] (w : Int) :
    ∀ (l : List α) (init : Int),
      l.foldl (fun a x => if P x then a + w else a) init
        = init + w * ((l.filter (fun x => decide (P x))).length : Int) := by
  intro l
  induction l with
  | nil => intro init; simp
  | cons a l ih =>
    intro init
    by_cases h : P a <;> simp [h, ih] <;> ring

/-- The number of other categories (among the first 3 examined) whose keyword
list matches the post in at least 2 keywords — the quantity the conflict
penalty charges 15 for. -/
def conflicting_category_count (post_text : String) (business_type industry_type : Option String) : Nat :=
  let all_businesses :=
    (if is_truthy business_type then BUSINESS_KEYWORDS else INDUSTRY_KEYWORDS).map Prod.fst
  match (if is_truthy business_type then business_type else industry_type) with
  | none => 0
  | some t =>
    if all_businesses.contains t then
      (((all_businesses.filter (fun b => b ≠ t)).take 3).filter
        (fun other_business =>
          count_matched post_text
            (if is_truthy business_type then get_keywords_for_selection (some other_business) none
             else get_keywords_for_selection none (some other_business)) ≥ 2)).length
    else 0

theorem conflict_penalty_eq (post_text : String) (business_type industry_type : Option String) :
    calculate_business_conflict_penalty post_text business_type industry_type
      = 15 * (conflicting_category_count post_text business_type industry_type : Int) := by
  simp only [calculate_business_conflict_penalty, conflicting_category_count]
  cases hif : (if is_truthy business_type then business_type else industry_type) with
  | none => simp
  | some t =>
    dsimp only
    by_cases hc :
        ((if is_truthy business_type then BUSINESS_KEYWORDS else INDUSTRY_KEYWORDS).map
          Prod.fst).contains t = true
    · rw [if_pos hc, if_pos hc,
        foldl_add_if_prop
          (fun other_business =>
            count_matched post_text
              (if is_truthy business_type then get_keywords_for_selection (some other_business) none
               else get_keywords_for_selection none (some other_business)) ≥ 2) 15]
      ring
    · rw [if_neg hc, if_neg hc]
      simp

/-- The business-relevance score exactly as claim C3 words it: a single clamp
to [0,100] at the end, after the bonus is added and the conflict penalty
subtracted (floored at 0 before the final clamp). -/
def c3_claim_business_relevance (post_text : String) (business_type industry_type : Option String) : Int :=
  if !is_truthy business_type && !is_truthy industry_type then 0
  else
    let target_keywords := get_keywords_for_selection business_type industry_type
    if target_keywords.isEmpty then 0
    else
      let matched := count_matched (py_lower post_text) target_keywords
      let base : Int := ((matched * 100 / target_keywords.length : Nat) : Int)
      let bonus : Int := if matched ≥ 3 then 20 else if matched ≥ 2 then 10 else 0
      min 100 (max 0 (base + bonus
        - 15 * (conflicting_category_count post_text business_type industry_type : Int)))

/-- The business-relevance score as the code computes it, written as one
arithmetic expression: `base + bonus` is clamped to 100 (and floored) *before*
the conflict penalty is subtracted. -/
def c3_amended_business_relevance (post_text : String) (business_type industry_type : Option String) : Int :=
  if !is_truthy business_type && !is_truthy industry_type then 0
  else
    let target_keywords := get_keywords_for_selection business_type industry_type
    if target_keywords.isEmpty then 0
    else
      let matched := count_matched (py_lower post_text) target_keywords
      let base : Int := ((matched * 100 / target_keywords.length : Nat) : Int)
      let bonus : Int := if matched ≥ 3 then 20 else if matched ≥ 2 then 10 else 0
      min 100 (max 0 (min 100 (base + bonus)
        - 15 * (conflicting_category_count post_text business_type industry_type : Int)))

/-- Claim C3 (counterexample): for industry "Fitness" and a post matching 11 of
its 13 keywords plus 2 SaaS keywords, the code clamps `floor(1100/13) + 20 =
104` to 100 before subtracting the conflict penalty 15, returning 85; the
claim's single final clamp would give `min(100, 104 - 15) = 89`. -/
theorem c3_clamp_counterexample :
    calculate_business_relevance true
      "fitness gym workout exercise training health wellness personal training fitness business gym owner fitness studio saas software"
      none (some "Fitness") = 85 ∧
    c3_claim_business_relevance
      "fitness gym workout exercise training health wellness personal training fitness business gym owner fitness studio saas software"
      none (some "Fitness") = 89 := by
  constructor <;> decide

/-- Claim C3 (amended): in improved mode the business-relevance score is 0
without a category (or for an unknown category), and otherwise equals
`floor(100*matches/len) + bonus`, **clamped to 100 before** the conflict
penalty (15 per conflicting category among the up-to-3 examined) is
subtracted, then floored at 0 and clamped to 100. -/
theorem c3_business_relevance_amended (post_text : String) (business_type industry_type : Option String) :
    calculate_business_relevance true post_text business_type industry_type
      = c3_amended_business_relevance post_text business_type industry_type := by
  simp only [calculate_business_relevance, c3_amended_business_relevance,
    calculate_business_relevance_score, conflict_penalty_eq, Bool.not_true,
    Bool.false_eq_true, if_false]
  split_ifs <;> rfl

/-- Claim C4: `validate_user_limits` rejects exactly the requests with
`results_used + requested > 150` or `posts_analyzed + requested*15 > 2250`,
and on rejection the reported remaining figures are exactly `150 -
results_used` and `2250 - posts_analyzed`. -/
theorem c4_quota_enforcement (results_used posts_analyzed requested : Int) :
    ((validate_user_limits results_used posts_analyzed requested).is_valid = false ↔
      results_used + requested > 150 ∨ posts_analyzed + requested * 15 > 2250)
    ∧ ((validate_user_limits results_used posts_analyzed requested).is_valid = false →
        (validate_user_limits results_used posts_analyzed requested).remaining_results
          = 150 - results_used ∧
        (validate_user_limits results_used posts_analyzed requested).remaining_posts
          = 2250 - posts_analyzed) := by
  unfold validate_user_limits get_posts_to_scrape
  dsimp only
  split_ifs with h1 h2
  · exact ⟨iff_of_true rfl (Or.inl h1), fun _ => ⟨rfl, rfl⟩⟩
  · exact ⟨iff_of_true rfl (Or.inr h2), fun _ => ⟨rfl, rfl⟩⟩
  · refine ⟨iff_of_false (by simp) (not_or.mpr ⟨h1, h2⟩), fun hcontra => ?_⟩
    simp at hcontra

/-- Witness for `c4_quota_enforcement`: the spec's scenario 5 — an account
with 145 results used requesting 10 is rejected and told 5 results remain. -/
theorem c4_quota_enforcement_witness :
    (validate_user_limits 145 0 10).is_valid = false ∧
    (validate_user_limits 145 0 10).remaining_results = 5 := by
  have h := c4_quota_enforcement 145 0 10
  have hv : (validate_user_limits 145 0 10).is_valid = false := h.1.mpr (by omega)
  refine ⟨hv, ?_⟩
  have h5 := (h.2 hv).1
  norm_num at h5
  exact h5

/-- Claim C10: the cache key is the plain underscore-concatenation of its five
components, so it is not injective: the distinct argument tuples
`("a_b", "c", ...)` and `("a", "b_c", ...)` share the key `"a_b_c_t_u_5"`, and
a lookup with the second tuple returns the payload stored under the first. -/
theorem c10_cache_key_collision :
    generate_cache_key "a_b" "c" "t" "u" (some 5) = generate_cache_key "a" "b_c" "t" "u" (some 5)
    ∧ (("a_b", "c") : String × String) ≠ ("a", "b_c")
    ∧ (get_cached_results (cache_results ([] : CacheStore Nat) 0 "a_b" "c" "t" "u" (some 5) (7, 0))
        0 "a" "b_c" "t" "u" (some 5)).2 = some (7, 0) := by
  refine ⟨by decide, by decide, ?_⟩
  have hstore :
      cache_results ([] : CacheStore Nat) 0 "a_b" "c" "t" "u" (some 5) (7, 0)
        = [("a_b_c_t_u_5", (0 : ℚ), 7)] := by
    decide
  have hkey : generate_cache_key "a" "b_c" "t" "u" (some 5) = "a_b_c_t_u_5" := by decide
  rw [hstore]
  simp only [get_cached_results, hkey, List.lookup]
  norm_num

theorem keyword_match_bounds (post_text : String) (keywords : List String) :
    0 ≤ calculate_keyword_match post_text keywords ∧
    calculate_keyword_match post_text keywords ≤ 100 := by
  unfold calculate_keyword_match
  dsimp only
  split_ifs
  · exact ⟨le_refl 0, by norm_num⟩
  · exact ⟨le_min (by norm_num) (Int.natCast_nonneg _), min_le_left _ _⟩

theorem struggle_detection_bounds (improved : Bool) (post_text : String) :
    0 ≤ calculate_struggle_detection improved post_text ∧
    calculate_struggle_detection improved post_text ≤ 100 := by
  cases improved with
  | false =>
    simp only [calculate_struggle_detection, Bool.not_false, if_true]
    rw [foldl_add_if (fun ind => substr ind post_text) 20,
      foldl_add_if (fun ind => substr ind post_text) 10]
    split_ifs <;> omega
  | true =>
    simp only [calculate_struggle_detection, Bool.not_true, Bool.false_eq_true, if_false]
    split_ifs <;> omega

theorem business_relevance_bounds (improved : Bool) (post_text : String)
    (business_type industry_type : Option String) :
    0 ≤ calculate_business_relevance improved post_text business_type industry_type ∧
    calculate_business_relevance improved post_text business_type industry_type ≤ 100 := by
  cases improved with
  | false =>
    simp only [calculate_business_relevance, Bool.not_false, if_true]
    rw [foldl_add_if (fun keyword => substr keyword post_text) 5]
    omega
  | true =>
    simp only [calculate_business_relevance, Bool.not_true, Bool.false_eq_true, if_false]
    split_ifs <;> omega

/-- Claim C9: in both scoring modes, every numeric field of the returned
score breakdown — keyword match, struggle detection, business relevance and
the blended overall score — lies in [0, 100]. -/
theorem c9_score_bounds (improved : Bool) (title selftext : String)
    (keywords : List String) (business_type industry_type : Option String) :
    (0 ≤ (analyze_post_relevance improved title selftext keywords business_type industry_type).keyword_match ∧
      (analyze_post_relevance improved title selftext keywords business_type industry_type).keyword_match ≤ 100) ∧
    (0 ≤ (analyze_post_relevance improved title selftext keywords business_type industry_type).struggle_detection ∧
      (analyze_post_relevance improved title selftext keywords business_type industry_type).struggle_detection ≤ 100) ∧
    (0 ≤ (analyze_post_relevance improved title selftext keywords business_type industry_type).business_relevance ∧
      (analyze_post_relevance improved title selftext keywords business_type industry_type).business_relevance ≤ 100) ∧
    (0 ≤ (analyze_post_relevance improved title selftext keywords business_type industry_type).overall_score ∧
      (analyze_post_relevance improved title selftext keywords business_type industry_type).overall_score ≤ 100) := by
  have hk := keyword_match_bounds (py_lower (title ++ " " ++ selftext)) keywords
  have hs := struggle_detection_bounds improved (py_lower (title ++ " " ++ selftext))
  have hb := business_relevance_bounds improved (py_lower (title ++ " " ++ selftext))
    business_type industry_type
  simp only [analyze_post_relevance]
  refine ⟨hk, hs, hb, ?_⟩
  split_ifs <;> omega

theorem lookup_filter_ne {α : Type} (k : String) (l : CacheStore α) :
    (l.filter (fun e => e.1 ≠ k)).lookup k = none := by
  induction l with
  | nil => rfl
  | cons e l ih =>
    by_cases h : e.1 = k
    · simpa [List.filter_cons, h] using ih
    · have hbeq : (k == e.1) = false := beq_false_of_ne (Ne.symm h)
      simpa [List.filter_cons, h, List.lookup, hbeq] using ih

/-- Claim C6: storing an entry and looking it up at `now`: age over 24 hours
is a miss that deletes the entry; age at most 24 hours is a hit returning the
stored payload with its exact age `(now - t0)/3600`; and looking up a key
with no entry is a miss that leaves the cache unchanged. -/
theorem c6_cache_ttl {α : Type} (cache : CacheStore α) (t0 now : ℚ)
    (query business_type time_range user_id : String) (result_count : Option Int)
    (payload : α) (age0 : ℚ) :
    ((now - t0) / 3600 > 24 →
      (get_cached_results
          (cache_results cache t0 query business_type time_range user_id result_count (payload, age0))
          now query business_type time_range user_id result_count).2 = none ∧
      (get_cached_results
          (cache_results cache t0 query business_type time_range user_id result_count (payload, age0))
          now query business_type time_range user_id result_count).1.lookup
        (generate_cache_key query business_type time_range user_id result_count) = none) ∧
    ((now - t0) / 3600 ≤ 24 →
      get_cached_results
          (cache_results cache t0 query business_type time_range user_id result_count (payload, age0))
          now query business_type time_range user_id result_count
        = (cache_results cache t0 query business_type time_range user_id result_count (payload, age0),
           some (payload, (now - t0) / 3600))) ∧
    (∀ (c : CacheStore α),
      c.lookup (generate_cache_key query business_type time_range user_id result_count) = none →
      get_cached_results c now query business_type time_range user_id result_count = (c, none)) := by
  have hlk :
      (cache_results cache t0 query business_type time_range user_id result_count
        (payload, age0)).lookup
        (generate_cache_key query business_type time_range user_id result_count)
        = some (t0, payload) := by
    simp [cache_results, List.lookup]
  refine ⟨fun hgt => ?_, fun hle => ?_, fun c hc => ?_⟩
  · rw [get_cached_results, hlk]
    dsimp only
    rw [if_pos hgt]
    exact ⟨rfl, lookup_filter_ne _ _⟩
  · rw [get_cached_results, hlk]
    dsimp only
    rw [if_neg (not_lt.mpr hle)]
  · rw [get_cached_results, hc]

/-- Witness for `c6_cache_ttl`: an entry stored at time 0 is a miss when
looked up 25 hours later, and a hit with age exactly 1 hour when looked up
3600 seconds later. -/
theorem c6_cache_ttl_witness :
    (get_cached_results (cache_results ([] : CacheStore Nat) 0 "q" "b" "t" "u" (some 1) (7, 0))
       90000 "q" "b" "t" "u" (some 1)).2 = none ∧
    (get_cached_results (cache_results ([] : CacheStore Nat) 0 "q" "b" "t" "u" (some 1) (7, 0))
       3600 "q" "b" "t" "u" (some 1)).2 = some (7, 1) := by
  have h1 := (c6_cache_ttl ([] : CacheStore Nat) 0 90000 "q" "b" "t" "u" (some 1) 7 0).1
    (by norm_num)
  have h2 := (c6_cache_ttl ([] : CacheStore Nat) 0 3600 "q" "b" "t" "u" (some 1) 7 0).2.1
    (by norm_num)
  refine ⟨h1.1, ?_⟩
  rw [h2]
  norm_num

theorem except_bind_ok {ε α β : Type} (a : α) (f : α → Except ε β) :
    (Except.ok a >>= f) = f a := rfl

theorem except_bind_err {ε α β : Type} (e : ε) (f : α → Except ε β) :
    ((Except.error e : Except ε α) >>= f) = Except.error e := rfl

theorem mapM_error_of_mem {α β : Type} (f : α → Except Unit β) :
    ∀ (l : List α), (∃ x ∈ l, f x = Except.error ()) → l.mapM f = Except.error () := by
  intro l
  induction l with
  | nil => rintro ⟨x, hx, _⟩; cases hx
  | cons a l ih =>
    rintro ⟨x, hx, hfx⟩
    rw [List.mapM_cons]
    rcases List.mem_cons.mp hx with rfl | hxl
    · rw [hfx, except_bind_err]
    · cases hfa : f a with
      | error e => cases e; rw [except_bind_err]
      | ok b => rw [except_bind_ok, ih ⟨x, hxl, hfx⟩, except_bind_err]

theorem score_post_error_of_bad (all_keywords enhanced_keywords problem_words : List String)
    (p : RawPost) (h : p.title = none ∨ p.content = none) :
    score_post all_keywords enhanced_keywords problem_words p = Except.error () := by
  rcases h with h | h
  · have h1 : get_str p.title = Except.error () := by rw [h]; rfl
    unfold score_post
    rw [h1, except_bind_err]
  · cases ht : p.title with
    | none =>
      have h1 : get_str p.title = Except.error () := by rw [ht]; rfl
      unfold score_post
      rw [h1, except_bind_err]
    | some t =>
      have h1 : get_str p.title = Except.ok t := by rw [ht]; rfl
      have h2 : get_str p.content = Except.error () := by rw [h]; rfl
      unfold score_post
      rw [h1, except_bind_ok, h2, except_bind_err]

theorem create_leads_eq (posts : List (RawPost × Int)) (problem_description business_type : String) :
    create_leads_from_posts posts problem_description business_type
      = posts.filterMap (fun ps => (make_lead ps business_type).toOption) := by
  suffices h : ∀ acc,
      posts.foldl
        (fun leads ps =>
          match make_lead ps business_type with
          | Except.ok lead => leads ++ [lead]
          | Except.error _ => leads) acc
        = acc ++ posts.filterMap (fun ps => (make_lead ps business_type).toOption) by
    simpa [create_leads_from_posts] using h []
  induction posts with
  | nil => intro acc; simp
  | cons p ps ih =>
    intro acc
    rw [List.foldl_cons, List.filterMap_cons]
    cases hm : make_lead p business_type with
    | ok lead => simp [hm, ih, Except.toOption]
    | error e => simp [hm, ih, Except.toOption]

/-- A well-formed post that alone passes the rule-based filter for
problem "customers" and business "SaaS Companies" (score 12 ≥ threshold 5). -/
def c7_good_post : RawPost :=
  { title := some "struggling to get customers", content := some "help",
    subreddit := "SaaS", permalink := "p1", author := "a1", created_utc := 0,
    score := 1, fields_ok := true }

/-- A malformed post whose stored title is not a string, so `.lower()` raises
while it is being scored. -/
def c7_bad_post : RawPost :=
  { title := none, content := some "x",
    subreddit := "s", permalink := "p2", author := "a2", created_utc := 0,
    score := 0, fields_ok := true }

/-- Claim C7 (counterexample): the batch `[good, bad]` — where `good` alone
produces one lead — returns the empty lead list, because the exception raised
while scoring `bad` is only caught at the `filter_posts` boundary, which
discards the whole batch instead of skipping the one post. -/
theorem c7_scoring_abort_counterexample :
    (filter_posts (fun _ => "s") [c7_good_post, c7_bad_post] "customers" "SaaS Companies" none).1 = [] ∧
    (filter_posts (fun _ => "s") [c7_good_post] "customers" "SaaS Companies" none).1.length = 1 := by
  constructor <;> decide

/-- Claim C7 (amended): an exception while *scoring* any individual post aborts
the whole batch — `filter_posts` catches it at the pipeline boundary and
returns the empty lead list with the initial metrics, not the leads of the
other posts; only an exception while *constructing the Lead* of an individual
post is skipped per-post (the remaining posts still produce their leads). -/
theorem c7_failure_semantics_amended (summarize : Lead → String) (posts : List RawPost)
    (problem_description business_type : String) (industry_type : Option String) :
    ((∃ p ∈ posts, p.title = none ∨ p.content = none) →
      filter_posts summarize posts problem_description business_type industry_type
        = ([], initial_filter_metrics posts)) ∧
    (∀ (scored : List (RawPost × Int)) (pd bt : String),
      create_leads_from_posts scored pd bt
        = scored.filterMap (fun ps => (make_lead ps bt).toOption)) := by
  constructor
  · rintro ⟨p, hp, hbad⟩
    have herr : ∀ (aw ew pw : List String),
        posts.mapM (score_post aw ew pw) = Except.error () :=
      fun aw ew pw =>
        mapM_error_of_mem (score_post aw ew pw) posts
          ⟨p, hp, score_post_error_of_bad aw ew pw p hbad⟩
    have hrb : rule_based_filter posts problem_description business_type industry_type
        = Except.error () := by
      unfold rule_based_filter
      dsimp only
      rw [herr, except_bind_err]
    unfold filter_posts
    rw [hrb]
  · intro scored pd bt
    exact create_leads_eq scored pd bt

/-- Witness for `c7_failure_semantics_amended`: a singleton batch with a
malformed post yields the empty lead list and the initial metrics. -/
theorem c7_failure_semantics_amended_witness :
    filter_posts (fun _ => "s") [c7_bad_post] "customers" "SaaS Companies" none
      = ([], initial_filter_metrics [c7_bad_post]) :=
  (c7_failure_semantics_amended (fun _ => "s") [c7_bad_post] "customers" "SaaS Companies" none).1
    ⟨c7_bad_post, by simp, Or.inl rfl⟩

theorem search_leads_core_user_after (req : SearchRequest) (user : Option Account)
    (acc : Account) (cache : CacheStore (List Lead)) (now : ℚ) (fetched : List RawPost)
    (summarize : Lead → String) (ev0 : List SearchEvent) :
    (search_leads_core req user (some acc) cache now fetched summarize ev0).user_after
      = some { results_used := acc.results_used + req.result_count,
               posts_analyzed := acc.posts_analyzed + req.result_count * 15 } := by
  unfold search_leads_core commit_usage get_posts_to_scrape
  dsimp only
  rcases hl :
      (get_cached_results cache now req.problem_description
        ((if is_truthy req.business then req.business else req.industry).getD "")
        "all_time" (cache_uid req.user_id) (some req.result_count)).2
    with _ | ⟨leads, age⟩ <;> rfl

/-- Claim C8: a request with `result_count` outside [1,150], or blank problem
text, or no category, is rejected with a validation error, and no quota
check, cache access, fetch, filter run or commit happens (the event trace is
empty and both the account row and the cache are untouched). -/
theorem c8_validation_before_effects (req : SearchRequest) (user : Option Account)
    (cache : CacheStore (List Lead)) (now : ℚ) (fetched : List RawPost) (summarize : Lead → String)
    (h : req.result_count < 1 ∨ req.result_count > 150 ∨ py_strip req.problem_description = "" ∨
      (is_truthy req.business = false ∧ is_truthy req.industry = false)) :
    (∃ detail, (search_leads req user cache now fetched summarize).result
        = Except.error (SearchFailure.validation_error detail)) ∧
    (search_leads req user cache now fetched summarize).events = [] ∧
    (search_leads req user cache now fetched summarize).cache_after = cache ∧
    (search_leads req user cache now fetched summarize).user_after = user := by
  unfold search_leads
  split_ifs with h1 h2 h3 h4
  · exact ⟨⟨_, rfl⟩, rfl, rfl, rfl⟩
  · exact ⟨⟨_, rfl⟩, rfl, rfl, rfl⟩
  · exact ⟨⟨_, rfl⟩, rfl, rfl, rfl⟩
  · exact ⟨⟨_, rfl⟩, rfl, rfl, rfl⟩
  all_goals exfalso; rcases h with h | h | h | ⟨hb, hi⟩ <;> simp_all

/-- Witness for `c8_validation_before_effects`: the spec's scenario 4 —
`result_count = 200` fails validation with an empty effect trace. -/
theorem c8_validation_before_effects_witness :
    (∃ detail,
      (search_leads
        { problem_description := "p", business := some "SaaS Companies", industry := none,
          user_id := none, result_count := 200 }
        none [] 0 [] (fun _ => "")).result
        = Except.error (SearchFailure.validation_error detail)) ∧
    (search_leads
      { problem_description := "p", business := some "SaaS Companies", industry := none,
        user_id := none, result_count := 200 }
      none [] 0 [] (fun _ => "")).events = [] := by
  have h := c8_validation_before_effects
    { problem_description := "p", business := some "SaaS Companies", industry := none,
      user_id := none, result_count := 200 }
    none [] 0 [] (fun _ => "") (Or.inr (Or.inl (by norm_num)))
  exact ⟨h.1, h.2.1⟩

/-- Claim C5: whenever a request by an identified account completes (returns a
response), the account is charged exactly the requested count and 15 posts per
requested result — regardless of the cache state, the fetched posts and the
number of leads actually returned. -/
theorem c5_commit_accounting (req : SearchRequest) (user : Option Account)
    (cache : CacheStore (List Lead)) (now : ℚ) (fetched : List RawPost) (summarize : Lead → String)
    (acc : Account) (resp : SearchResponse)
    (huser : user = some acc) (hid : is_truthy req.user_id = true)
    (hok : (search_leads req user cache now fetched summarize).result = Except.ok resp) :
    (search_leads req user cache now fetched summarize).user_after
      = some { results_used := acc.results_used + req.result_count,
               posts_analyzed := acc.posts_analyzed + req.result_count * 15 } := by
  unfold search_leads at hok ⊢
  simp only [huser, hid, eq_self_iff_true, if_true] at hok ⊢
  split_ifs at hok ⊢ with h1 h2 h3 h4 hq <;>
    first
      | exact absurd hok (by simp)
      | exact search_leads_core_user_after req (some acc) acc cache now fetched summarize _

/-- Witness for `c5_commit_accounting`: a fresh account requesting 20 results
on a cache miss with no fetched posts (zero leads returned) is still charged
20 results and 300 posts. -/
theorem c5_commit_accounting_witness :
    (search_leads
      { problem_description := "customer acquisition", business := some "SaaS Companies",
        industry := none, user_id := some "1", result_count := 20 }
      (some { results_used := 0, posts_analyzed := 0 }) [] 0 [] (fun _ => "")).user_after
      = some { results_used := 20, posts_analyzed := 300 } := by
  have h := c5_commit_accounting
    { problem_description := "customer acquisition", business := some "SaaS Companies",
      industry := none, user_id := some "1", result_count := 20 }
    (some { results_used := 0, posts_analyzed := 0 }) [] 0 [] (fun _ => "")
    { results_used := 0, posts_analyzed := 0 }
    { leads := [], total_found := 0, result_age_hours := 0, results_remaining := 130,
      posts_remaining := 1950, posts_analyzed := 0 }
    rfl rfl (by decide)
  simpa using h
